import Mathlib

/-
Verification of tiago_description/tiago_launch_utils.py.

The module under study builds ROS 2 launch helper values:
DeclareLaunchArgument records, deferred substitution expressions
(LaunchConfiguration, PythonExpression, PathJoinSubstitution,
FindPackageShare, ExecutableInPackage, and the custom
TiagoXacroConfigSubstitution), and a Command action invoking xacro.
The embedding below mirrors those objects as plain data and models
deferred evaluation as explicit functions over a resolution context.
-/

/-- Single quote character as a string, used by the suffix expression fragments. -/
def squote : String := String.singleton (Char.ofNat 39)

/-- Record mirroring launch.actions.DeclareLaunchArgument as constructed in the
source: a name, a default value, a description and a list of allowed choices. -/
structure DeclareLaunchArgument where
  name : String
  default_value : String
  description : String
  choices : List String
deriving DecidableEq

/-- Embedding of get_tiago_hw_arguments. The external base provider
get_tiago_base_hw_arguments from pmb2_description is out of scope per the spec,
so it is taken as an opaque function of the forwarded keyword arguments. Each
branch mirrors one of the five conditional appends of the source, with the
literal names, descriptions and choices copied from the code. -/
def get_tiago_hw_arguments
    (get_tiago_base_hw_arguments : List (String × String) → List DeclareLaunchArgument)
    (arm wrist_model end_effector ft_sensor camera_model : Bool)
    (default_arm default_wrist_model default_end_effector default_ft_sensor
      default_camera_model : String)
    (kwargs : List (String × String)) : List DeclareLaunchArgument :=
  let args := get_tiago_base_hw_arguments kwargs
  let args := if arm then args ++
    [DeclareLaunchArgument.mk "arm" default_arm "Which type of arm TIAGo has. "
      ["no-arm", "left-arm", "right-arm"]] else args
  let args := if wrist_model then args ++
    [DeclareLaunchArgument.mk "wrist_model" default_wrist_model "Wrist model. "
      ["wrist-2010", "wrist-2017"]] else args
  let args := if end_effector then args ++
    [DeclareLaunchArgument.mk "end_effector" default_end_effector "End effector model."
      ["pal-gripper", "pal-hey5", "schunk-wsg", "custom", "no-end-effector"]] else args
  let args := if ft_sensor then args ++
    [DeclareLaunchArgument.mk "ft_sensor" default_ft_sensor "FT sensor model. "
      ["schunk-ft", "no-ft-sensor"]] else args
  let args := if camera_model then args ++
    [DeclareLaunchArgument.mk "camera_model" default_camera_model "Head camera model. "
      ["no-camera", "orbbec-astra", "orbbec-astra-pro", "asus-xtion"]] else args
  args

/-- Resolution context owned by the launch runtime: the launch configuration
store (partial, since a name may be undeclared), plus the package share and
executable resolvers used by FindPackageShare and ExecutableInPackage. -/
structure LaunchContext where
  config : String → Option String
  packageShare : String → String
  executablePath : String → String → String

/-- Embedding of launch_pal.arg_utils.read_launch_argument: perform a
LaunchConfiguration substitution on the context, raising a lookup error
carrying the undeclared name when the store has no binding for it. -/
def readLaunchArgument (name : String) (context : LaunchContext) : Except String String :=
  match context.config name with
  | some v => Except.ok v
  | none => Except.error name

/-- Embedding of TiagoXacroConfigSubstitution.perform: read the five launch
arguments in source order and concatenate the name:=value pairs, each with a
leading space. A failing read propagates and aborts the whole evaluation. -/
def tiagoXacroPerform (context : LaunchContext) : Except String String :=
  match readLaunchArgument "laser_model" context with
  | Except.error err => Except.error err
  | Except.ok laser_model =>
  match readLaunchArgument "arm" context with
  | Except.error err => Except.error err
  | Except.ok arm =>
  match readLaunchArgument "end_effector" context with
  | Except.error err => Except.error err
  | Except.ok end_effector =>
  match readLaunchArgument "ft_sensor" context with
  | Except.error err => Except.error err
  | Except.ok ft_sensor =>
  match readLaunchArgument "camera_model" context with
  | Except.error err => Except.error err
  | Except.ok camera_model =>
    Except.ok (" laser_model:=" ++ laser_model ++ " arm:=" ++ arm ++
      " end_effector:=" ++ end_effector ++ " ft_sensor:=" ++ ft_sensor ++
      " camera_model:=" ++ camera_model)

/-- Syntax of the launch substitutions appearing in the source file. Plain
Python strings inside substitution lists are normalised to text fragments,
as the launch library does. -/
inductive Subst where
  | text (s : String)
  | launchConfiguration (name : String)
  | executableInPackage (package executable : String)
  | findPackageShare (pkg : String)
  | pathJoinSubstitution (parts : List Subst)
  | tiagoXacroConfigSubstitution

/-- Join a list of strings with a separator between consecutive elements and
no trailing separator; models os.path.join style joining for path parts. -/
def joinSep (sep : String) : List String → String
  | [] => ""
  | [v] => v
  | v :: vs => v ++ sep ++ joinSep sep vs

mutual

/-- Evaluation of one substitution against a resolution context, mirroring the
perform methods of the launch library: text fragments evaluate to themselves,
LaunchConfiguration looks the name up in the store (raising on a missing
binding), PathJoinSubstitution joins the performed parts with a path
separator, and the custom substitution runs tiagoXacroPerform. -/
def performSubst (context : LaunchContext) : Subst → Except String String
  | Subst.text s => Except.ok s
  | Subst.launchConfiguration n => readLaunchArgument n context
  | Subst.executableInPackage p e => Except.ok (context.executablePath p e)
  | Subst.findPackageShare p => Except.ok (context.packageShare p)
  | Subst.pathJoinSubstitution parts =>
      match performSubstList context parts with
      | Except.ok vs => Except.ok (joinSep "/" vs)
      | Except.error err => Except.error err
  | Subst.tiagoXacroConfigSubstitution => tiagoXacroPerform context

/-- Evaluation of a list of substitutions left to right; the first lookup
error aborts the whole list, as exceptions do in the Python source. -/
def performSubstList (context : LaunchContext) : List Subst → Except String (List String)
  | [] => Except.ok []
  | s :: ss =>
      match performSubst context s, performSubstList context ss with
      | Except.ok v, Except.ok vs => Except.ok (v :: vs)
      | Except.error err, _ => Except.error err
      | Except.ok _, Except.error err => Except.error err

end

/-- Record mirroring launch.substitutions.PythonExpression: it stores the list
of expression fragments given to its constructor. -/
structure PythonExpression where
  expression : List Subst

/-- Concatenation of a list of strings with no separator, mirroring the empty
string join that PythonExpression.perform applies to its performed fragments. -/
def joinAll : List String → String
  | [] => ""
  | [v] => v
  | v :: vs => v ++ joinAll vs

/-- Text obtained by performing every fragment of a PythonExpression and
concatenating the results: this is exactly the expression text that
PythonExpression.perform hands to the Python evaluator. The claims about the
suffix expression are stated about this text. -/
def pythonExpressionText (context : LaunchContext) (e : PythonExpression) :
    Except String String :=
  Except.map joinAll (performSubstList context e.expression)

/-- Embedding of get_tiago_hw_suffix: build the fragment list starting from an
opening quote, append a LaunchConfiguration and an underscore for every flag
set, drop the last element (the slice with end index minus one of the source),
append a closing quote, and wrap the fragments in a PythonExpression. The
keyword arguments are accepted and never used, as in the source. -/
def get_tiago_hw_suffix
    (arm wrist_model end_effector ft_sensor camera_model : Bool)
    (kwargs : List (String × String)) : PythonExpression :=
  let suffix_elements : List Subst := [Subst.text squote]
  let suffix_elements := if arm then suffix_elements ++
    [Subst.launchConfiguration "arm", Subst.text "_"] else suffix_elements
  let suffix_elements := if wrist_model then suffix_elements ++
    [Subst.launchConfiguration "wrist_model", Subst.text "_"] else suffix_elements
  let suffix_elements := if end_effector then suffix_elements ++
    [Subst.launchConfiguration "end_effector", Subst.text "_"] else suffix_elements
  let suffix_elements := if ft_sensor then suffix_elements ++
    [Subst.launchConfiguration "ft_sensor", Subst.text "_"] else suffix_elements
  let suffix_elements := if camera_model then suffix_elements ++
    [Subst.launchConfiguration "camera_model", Subst.text "_"] else suffix_elements
  let suffix_elements := suffix_elements.dropLast
  let suffix_elements := suffix_elements ++ [Subst.text squote]
  PythonExpression.mk suffix_elements

/-- Record mirroring launch.substitutions.Command: the ordered argument
substitutions of the deferred external process invocation. -/
structure Command where
  command : List Subst

/-- Embedding of generate_robot_description_action: the Command built from the
xacro executable, a space token, the joined template path and the dynamic
configuration substitution, copied literally from the source. -/
def generate_robot_description_action : Command :=
  Command.mk
    [Subst.executableInPackage "xacro" "xacro",
     Subst.text " ",
     Subst.pathJoinSubstitution
       [Subst.findPackageShare "tiago_description",
        Subst.text "robots", Subst.text "tiago.urdf.xacro"],
     Subst.tiagoXacroConfigSubstitution]

/-- Join a list of strings with a single underscore between consecutive
elements and no trailing separator; spec side description of the suffix join. -/
def joinUnderscore : List String → String
  | [] => ""
  | [v] => v
  | v :: vs => v ++ "_" ++ joinUnderscore vs

/-- C1: for every subset of the five boolean flags set true,
get_tiago_hw_arguments returns, beyond the base provider declarations, exactly
one declaration per true flag, each carrying the fixed name of that dimension,
the fixed allowed values set, and the supplied default verbatim. -/
theorem tiago_hw_arguments_decls_spec
    (base : List (String × String) → List DeclareLaunchArgument)
    (arm wrist_model end_effector ft_sensor camera_model : Bool)
    (default_arm default_wrist_model default_end_effector default_ft_sensor
      default_camera_model : String)
    (kwargs : List (String × String)) :
    get_tiago_hw_arguments base arm wrist_model end_effector ft_sensor camera_model
      default_arm default_wrist_model default_end_effector default_ft_sensor
      default_camera_model kwargs =
    base kwargs
      ++ (if arm then [DeclareLaunchArgument.mk "arm" default_arm
            "Which type of arm TIAGo has. " ["no-arm", "left-arm", "right-arm"]] else [])
      ++ (if wrist_model then [DeclareLaunchArgument.mk "wrist_model" default_wrist_model
            "Wrist model. " ["wrist-2010", "wrist-2017"]] else [])
      ++ (if end_effector then [DeclareLaunchArgument.mk "end_effector" default_end_effector
            "End effector model."
            ["pal-gripper", "pal-hey5", "schunk-wsg", "custom", "no-end-effector"]] else [])
      ++ (if ft_sensor then [DeclareLaunchArgument.mk "ft_sensor" default_ft_sensor
            "FT sensor model. " ["schunk-ft", "no-ft-sensor"]] else [])
      ++ (if camera_model then [DeclareLaunchArgument.mk "camera_model" default_camera_model
            "Head camera model. "
            ["no-camera", "orbbec-astra", "orbbec-astra-pro", "asus-xtion"]] else []) := by
  cases arm <;> cases wrist_model <;> cases end_effector <;> cases ft_sensor <;>
    cases camera_model <;>
    simp [get_tiago_hw_arguments, List.append_assoc]

/-- C5: the list returned by get_tiago_hw_arguments is ordered with all base
provider declarations first, then arm, wrist_model, end_effector, ft_sensor,
camera_model in that fixed order, any dimension with a false flag absent. -/
theorem tiago_hw_arguments_order_spec
    (base : List (String × String) → List DeclareLaunchArgument)
    (arm wrist_model end_effector ft_sensor camera_model : Bool)
    (default_arm default_wrist_model default_end_effector default_ft_sensor
      default_camera_model : String)
    (kwargs : List (String × String)) :
    List.map DeclareLaunchArgument.name
      (get_tiago_hw_arguments base arm wrist_model end_effector ft_sensor camera_model
        default_arm default_wrist_model default_end_effector default_ft_sensor
        default_camera_model kwargs) =
    List.map DeclareLaunchArgument.name (base kwargs)
      ++ (if arm then ["arm"] else [])
      ++ (if wrist_model then ["wrist_model"] else [])
      ++ (if end_effector then ["end_effector"] else [])
      ++ (if ft_sensor then ["ft_sensor"] else [])
      ++ (if camera_model then ["camera_model"] else []) := by
  cases arm <;> cases wrist_model <;> cases end_effector <;> cases ft_sensor <;>
    cases camera_model <;>
    simp [get_tiago_hw_arguments, List.append_assoc]

/-- C9: get_tiago_hw_arguments only appends to the base provider result: the
base list is an unmodified initial segment of the returned list for every flag
setting, and with all five flags false the returned list is the base list. -/
theorem tiago_hw_arguments_base_frame
    (base : List (String × String) → List DeclareLaunchArgument)
    (arm wrist_model end_effector ft_sensor camera_model : Bool)
    (default_arm default_wrist_model default_end_effector default_ft_sensor
      default_camera_model : String)
    (kwargs : List (String × String)) :
    (get_tiago_hw_arguments base arm wrist_model end_effector ft_sensor camera_model
        default_arm default_wrist_model default_end_effector default_ft_sensor
        default_camera_model kwargs).take (base kwargs).length = base kwargs ∧
    get_tiago_hw_arguments base false false false false false
        default_arm default_wrist_model default_end_effector default_ft_sensor
        default_camera_model kwargs = base kwargs := by
  constructor
  · cases arm <;> cases wrist_model <;> cases end_effector <;> cases ft_sensor <;>
      cases camera_model <;>
      simp [get_tiago_hw_arguments, List.append_assoc, List.take_left, List.take_length]
  · simp [get_tiago_hw_arguments]

/-- C8: evaluation of the deferred expressions is deterministic in the
resolution context: against one fixed context, two evaluations of the xacro
configuration substitution, and of the suffix expression, return equal
results. Both evaluators are pure functions of the context in this model,
mirroring the absence of hidden state in the source. -/
theorem substitution_eval_deterministic
    (context : LaunchContext)
    (arm wrist_model end_effector ft_sensor camera_model : Bool)
    (kwargs : List (String × String)) :
    tiagoXacroPerform context = tiagoXacroPerform context ∧
    pythonExpressionText context
        (get_tiago_hw_suffix arm wrist_model end_effector ft_sensor camera_model kwargs) =
      pythonExpressionText context
        (get_tiago_hw_suffix arm wrist_model end_effector ft_sensor camera_model kwargs) :=
  And.intro rfl rfl

/-- C10: get_tiago_hw_suffix ignores its extra keyword arguments entirely, so
its result depends only on the five flags; by contrast get_tiago_hw_arguments
forwards the keyword arguments to the base provider, on which its result can
depend. -/
theorem tiago_hw_suffix_kwargs_independent :
    (∀ (arm wrist_model end_effector ft_sensor camera_model : Bool)
       (kwargs1 kwargs2 : List (String × String)),
       get_tiago_hw_suffix arm wrist_model end_effector ft_sensor camera_model kwargs1 =
       get_tiago_hw_suffix arm wrist_model end_effector ft_sensor camera_model kwargs2) ∧
    (∃ (base : List (String × String) → List DeclareLaunchArgument)
       (kwargs1 kwargs2 : List (String × String)),
       get_tiago_hw_arguments base false false false false false "" "" "" "" "" kwargs1 ≠
       get_tiago_hw_arguments base false false false false false "" "" "" "" "" kwargs2) := by
  constructor
  · intro arm wrist_model end_effector ft_sensor camera_model kwargs1 kwargs2
    rfl
  · refine ⟨fun kw => kw.map (fun p => DeclareLaunchArgument.mk p.1 p.2 "" []),
      [], [("a", "b")], ?_⟩
    simp [get_tiago_hw_arguments]

/-- C2: with a non empty subset of the five flags set, the text of the suffix
expression is the resolved values of the selected dimensions, in the fixed
order arm, wrist_model, end_effector, ft_sensor, camera_model, joined by a
single underscore between consecutive included fields with no trailing
separator, wrapped in single quotes. -/
theorem tiago_hw_suffix_join_spec
    (context : LaunchContext)
    (arm wrist_model end_effector ft_sensor camera_model : Bool)
    (kwargs : List (String × String))
    (va vw ve vf vc : String)
    (hne : arm = true ∨ wrist_model = true ∨ end_effector = true ∨
      ft_sensor = true ∨ camera_model = true)
    (ha : arm = true → context.config "arm" = some va)
    (hw : wrist_model = true → context.config "wrist_model" = some vw)
    (he : end_effector = true → context.config "end_effector" = some ve)
    (hf : ft_sensor = true → context.config "ft_sensor" = some vf)
    (hc : camera_model = true → context.config "camera_model" = some vc) :
    pythonExpressionText context
      (get_tiago_hw_suffix arm wrist_model end_effector ft_sensor camera_model kwargs) =
    Except.ok (squote ++ joinUnderscore
      ((if arm then [va] else []) ++ (if wrist_model then [vw] else []) ++
       (if end_effector then [ve] else []) ++ (if ft_sensor then [vf] else []) ++
       (if camera_model then [vc] else [])) ++ squote) := by
  cases arm <;> cases wrist_model <;> cases end_effector <;> cases ft_sensor <;>
    cases camera_model <;>
    simp_all [get_tiago_hw_suffix, pythonExpressionText, performSubstList, performSubst,
      readLaunchArgument, joinAll, joinUnderscore, Except.map, List.dropLast,
      String.append_assoc]

/-- Resolution context binding the five hardware dimensions to their built in
defaults; used to instantiate the suffix join theorem. -/
def defaultsContext : LaunchContext :=
  LaunchContext.mk
    (fun n =>
      if n = "arm" then some "no-arm"
      else if n = "wrist_model" then some "wrist-2010"
      else if n = "end_effector" then some "no-end-effector"
      else if n = "ft_sensor" then some "schunk-ft"
      else if n = "camera_model" then some "orbbec-astra"
      else none)
    (fun _ => "") (fun _ _ => "")

/-- Witness for C2: with all five flags set and all dimensions resolved to
their defaults, the suffix text is the defaults joined by underscores inside
single quotes. -/
theorem tiago_hw_suffix_join_spec_defaults :
    pythonExpressionText defaultsContext (get_tiago_hw_suffix true true true true true []) =
    Except.ok (squote ++ "no-arm_wrist-2010_no-end-effector_schunk-ft_orbbec-astra" ++
      squote) := by
  have h := tiago_hw_suffix_join_spec defaultsContext true true true true true []
    "no-arm" "wrist-2010" "no-end-effector" "schunk-ft" "orbbec-astra"
    (Or.inl rfl)
    (fun _ => rfl) (fun _ => rfl) (fun _ => rfl) (fun _ => rfl) (fun _ => rfl)
  exact h

/-- C3 evidence: with all five flags false the slice of the source removes the
opening quote itself, so the fragment list is a single quote character and the
expression text is one quote character, not the two character empty quoted
string the spec demands. -/
theorem tiago_hw_suffix_zero_flags_eval :
    (∀ context : LaunchContext,
      pythonExpressionText context (get_tiago_hw_suffix false false false false false []) =
        Except.ok squote) ∧
    squote.length = 1 ∧ squote ≠ squote ++ squote := by
  refine ⟨?_, by decide, by decide⟩
  intro context
  simp [get_tiago_hw_suffix, pythonExpressionText, performSubstList, performSubst,
    joinAll, Except.map, List.dropLast]

/-- C4: with all five option names bound in the context, the xacro
configuration substitution returns the space joined name:=value pairs in the
fixed order laser_model, arm, end_effector, ft_sensor, camera_model, each pair
preceded by one space. -/
theorem tiago_xacro_config_perform_spec
    (context : LaunchContext) (l a e f c : String)
    (hl : context.config "laser_model" = some l)
    (ha : context.config "arm" = some a)
    (he : context.config "end_effector" = some e)
    (hf : context.config "ft_sensor" = some f)
    (hc : context.config "camera_model" = some c) :
    tiagoXacroPerform context =
      Except.ok (" laser_model:=" ++ l ++ " arm:=" ++ a ++ " end_effector:=" ++ e ++
        " ft_sensor:=" ++ f ++ " camera_model:=" ++ c) := by
  simp [tiagoXacroPerform, readLaunchArgument, hl, ha, he, hf, hc]

/-- Resolution context with the example bindings of the spec: laser_model
sick-571, arm no-arm, end_effector pal-gripper, ft_sensor no-ft-sensor,
camera_model asus-xtion. -/
def exampleContext : LaunchContext :=
  LaunchContext.mk
    (fun n =>
      if n = "laser_model" then some "sick-571"
      else if n = "arm" then some "no-arm"
      else if n = "end_effector" then some "pal-gripper"
      else if n = "ft_sensor" then some "no-ft-sensor"
      else if n = "camera_model" then some "asus-xtion"
      else none)
    (fun _ => "") (fun _ _ => "")

/-- Witness for C4: on the example bindings of the spec the substitution
renders the exact space joined string. -/
theorem tiago_xacro_config_perform_spec_example :
    tiagoXacroPerform exampleContext =
      Except.ok " laser_model:=sick-571 arm:=no-arm end_effector:=pal-gripper ft_sensor:=no-ft-sensor camera_model:=asus-xtion" :=
  tiago_xacro_config_perform_spec exampleContext
    "sick-571" "no-arm" "pal-gripper" "no-ft-sensor" "asus-xtion"
    rfl rfl rfl rfl rfl

/-- C6: the deferred command returned by generate_robot_description_action has
exactly four arguments which evaluate, in order, to the xacro executable, a
single space, the share directory of tiago_description joined with robots and
tiago.urdf.xacro, and the dynamic configuration block, with no other
arguments. -/
theorem robot_description_command_spec
    (context : LaunchContext) (l a e f c : String)
    (hl : context.config "laser_model" = some l)
    (ha : context.config "arm" = some a)
    (he : context.config "end_effector" = some e)
    (hf : context.config "ft_sensor" = some f)
    (hc : context.config "camera_model" = some c) :
    performSubstList context generate_robot_description_action.command =
      Except.ok
        [context.executablePath "xacro" "xacro",
         " ",
         context.packageShare "tiago_description" ++ "/" ++ "robots" ++ "/" ++
           "tiago.urdf.xacro",
         " laser_model:=" ++ l ++ " arm:=" ++ a ++ " end_effector:=" ++ e ++
           " ft_sensor:=" ++ f ++ " camera_model:=" ++ c] := by
  simp [generate_robot_description_action, performSubstList, performSubst, joinSep,
    tiagoXacroPerform, readLaunchArgument, hl, ha, he, hf, hc, String.append_assoc]

/-- Witness for C6: evaluating the command arguments on the example context
yields the four expected tokens. -/
theorem robot_description_command_spec_example :
    performSubstList exampleContext generate_robot_description_action.command =
      Except.ok
        ["", " ", "/robots/tiago.urdf.xacro",
         " laser_model:=sick-571 arm:=no-arm end_effector:=pal-gripper ft_sensor:=no-ft-sensor camera_model:=asus-xtion"] :=
  robot_description_command_spec exampleContext
    "sick-571" "no-arm" "pal-gripper" "no-ft-sensor" "asus-xtion"
    rfl rfl rfl rfl rfl

/-- C7: whenever any of the five option names read by the xacro configuration
substitution is unbound in the context, evaluation returns the lookup error of
the first unbound name in evaluation order, with no default substituted and no
partial output string. -/
theorem tiago_xacro_config_lookup_error
    (context : LaunchContext)
    (h : context.config "laser_model" = none ∨ context.config "arm" = none ∨
      context.config "end_effector" = none ∨ context.config "ft_sensor" = none ∨
      context.config "camera_model" = none) :
    ∃ n, n ∈ ["laser_model", "arm", "end_effector", "ft_sensor", "camera_model"] ∧
      context.config n = none ∧ tiagoXacroPerform context = Except.error n := by
  cases hL : context.config "laser_model" with
  | none =>
    exact ⟨"laser_model", by simp, hL,
      by simp [tiagoXacroPerform, readLaunchArgument, hL]⟩
  | some l =>
    cases hA : context.config "arm" with
    | none =>
      exact ⟨"arm", by simp, hA,
        by simp [tiagoXacroPerform, readLaunchArgument, hL, hA]⟩
    | some a =>
      cases hE : context.config "end_effector" with
      | none =>
        exact ⟨"end_effector", by simp, hE,
          by simp [tiagoXacroPerform, readLaunchArgument, hL, hA, hE]⟩
      | some e =>
        cases hF : context.config "ft_sensor" with
        | none =>
          exact ⟨"ft_sensor", by simp, hF,
            by simp [tiagoXacroPerform, readLaunchArgument, hL, hA, hE, hF]⟩
        | some f =>
          cases hC : context.config "camera_model" with
          | none =>
            exact ⟨"camera_model", by simp, hC,
              by simp [tiagoXacroPerform, readLaunchArgument, hL, hA, hE, hF, hC]⟩
          | some c =>
            rcases h with h | h | h | h | h <;> simp_all

/-- Resolution context with laser_model unbound and every other name bound;
used to instantiate the lookup error theorem. -/
def missingLaserContext : LaunchContext :=
  LaunchContext.mk
    (fun n => if n = "laser_model" then none else some "v")
    (fun _ => "") (fun _ _ => "")

/-- Witness for C7: with laser_model undeclared, evaluation fails with the
lookup error for one of the five read names. -/
theorem tiago_xacro_config_lookup_error_example :
    ∃ n, n ∈ ["laser_model", "arm", "end_effector", "ft_sensor", "camera_model"] ∧
      missingLaserContext.config n = none ∧
      tiagoXacroPerform missingLaserContext = Except.error n :=
  tiago_xacro_config_lookup_error missingLaserContext (Or.inl rfl)
